import Mathlib

/-!
A shallow embedding of `src/chapterup/main.py` (the ChapterUp CLI).

Modelling conventions:
* A directory entry is its final-component name plus whether it is a regular
  file (`Entry`).  `dir_path.iterdir()` is modelled as an arbitrary list of
  entries (the OS returns them in unspecified order).
* `natsorted` (the `natsort` library, default `ns.INT` algorithm) is modelled
  as a stable sort by the natural-sort key (natsort sorts with Python's stable
  Timsort; all stable sorts by the same key agree, so the structurally
  recursive stable `List.insertionSort` is used): the string is split into
  maximal runs of ASCII digits and non-digits; digit runs compare by numeric
  value, other runs compare ordinally by code point, and a numeric run sorts
  before a string run at the head (natsort's empty-string-prefix convention).
  `natsorted` stringifies the `Path` arguments; since all paths produced by
  `iterdir` share the same directory prefix, comparing full path strings is
  comparing the entry names, so the key is taken over the entry name.
* Python `str`/`pathlib` helpers (`Path.suffix`, `str.lower`, `str.strip`,
  `str.startswith`) are modelled on ASCII data, the domain of this tool.
* The imgur client is an external collaborator: the per-image upload call is a
  parameter `upload : Entry → String` returning the identifier the code
  extracts from `image["response"]["data"]["id"]`; the album-creation call is
  recorded in an `UploadTrace` rather than performed.
-/

namespace ChapterUp

/-- Ordinal (code point) comparison of character lists, as Python compares
`str` values. -/
def charListLt : List Char → List Char → Bool
  | _, [] => false
  | [], _ :: _ => true
  | a :: as, b :: bs =>
    if a.toNat < b.toNat then true
    else if b.toNat < a.toNat then false
    else charListLt as bs

/-- Python `s < t` on strings: lexicographic by code point. -/
def strLt (s t : String) : Bool :=
  charListLt s.data t.data

/-- One run of the natural-sort key: a maximal non-digit run (kept as a
string) or a maximal digit run (kept as its numeric value). -/
inductive NatsortChunk where
  | str (s : String)
  | num (n : Nat)
deriving DecidableEq

/-- Strict comparison of two key chunks: numbers by value, strings ordinally,
and a number sorts before a string (natsort prefixes a number-leading key with
an empty string, which is below every nonempty string chunk). -/
def chunkLt : NatsortChunk → NatsortChunk → Bool
  | .num m, .num n => m < n
  | .num _, .str _ => true
  | .str _, .num _ => false
  | .str s, .str t => strLt s t

/-- Lexicographic `≤` on chunk lists (tuple comparison in Python). -/
def keyLe : List NatsortChunk → List NatsortChunk → Bool
  | [], _ => true
  | _ :: _, [] => false
  | a :: as, b :: bs =>
    if chunkLt a b then true
    else if chunkLt b a then false
    else keyLe as bs

/-- Numeric value of an ASCII digit. -/
def digitVal (c : Char) : Nat :=
  c.toNat - 48

/-- Extend a reversed chunk list by one character, merging it into the head
run when the kind (digit / non-digit) matches. -/
def natChunkPush (acc : List NatsortChunk) (c : Char) : List NatsortChunk :=
  if c.isDigit then
    match acc with
    | .num n :: rest => .num (n * 10 + digitVal c) :: rest
    | _ => .num (digitVal c) :: acc
  else
    match acc with
    | .str s :: rest => .str (s.push c) :: rest
    | _ => .str (String.singleton c) :: acc

/-- The natural-sort key of a string (natsort's default `ns.INT` key). -/
def natKey (s : String) : List NatsortChunk :=
  (s.data.foldl natChunkPush []).reverse

/-- Python `str.lower()` (ASCII model). -/
def pyLower (s : String) : String :=
  String.mk (s.data.map Char.toLower)

/-- A directory entry: its name and whether it is a regular file. -/
structure Entry where
  name : String
  isFile : Bool
deriving DecidableEq

/-- The `natsorted` comparison on directory entries. -/
def natLe (a b : Entry) : Bool :=
  keyLe (natKey a.name) (natKey b.name)

/-- Index of the last dot in a character list, if any. -/
def lastDotIdx : List Char → Option Nat
  | [] => none
  | c :: cs =>
    match lastDotIdx cs with
    | some i => some (i + 1)
    | none => if c = '.' then some 0 else none

/-- `pathlib.PurePath.suffix` of a file name: the part of the name from the
last dot on, empty when the dot is the first or missing or trailing. -/
def pySuffix (name : String) : String :=
  match lastDotIdx name.data with
  | some i =>
    if 0 < i ∧ i < name.data.length - 1 then String.mk (name.data.drop i) else ""
  | none => ""

/-- The extension list in `get_image_paths`. -/
def imageSuffixes : List String :=
  [".jpg", ".jpeg", ".png", ".gif"]

/-- `path.suffix.lower() in [".jpg", ".jpeg", ".png", ".gif"]`. -/
def isImageName (name : String) : Bool :=
  imageSuffixes.contains (pyLower (pySuffix name))

/-- `natsorted(dir_path.iterdir())`: stable sort by the natural-sort key. -/
def natsorted (entries : List Entry) : List Entry :=
  List.insertionSort (fun a b => natLe a b = true) entries

/-- `get_image_paths(dir_path)`: natural-sort the directory entries, then keep
those whose lowercased suffix is a known image extension. -/
def get_image_paths (entries : List Entry) : List Entry :=
  let paths := natsorted entries
  paths.filter fun path => imageSuffixes.contains (pyLower (pySuffix path.name))

/-- The `Config` dataclass: one field, defaulting to the empty string. -/
structure Config where
  imgur_access_token : String := ""
deriving DecidableEq

/-- The set of field names of the `Config` dataclass. -/
def configFields : List String :=
  ["imgur_access_token"]

/-- `Config.from_json_file` after `json.load`: the parsed JSON object is an
association list with distinct keys (values modelled as strings, the type the
tool ever serializes).  `cls(**data)` raises `TypeError` on any key that is
not a dataclass field; a missing field takes its dataclass default. -/
def Config.from_json (data : List (String × String)) : Except String Config :=
  if data.all fun kv => configFields.contains kv.1 then
    .ok
      { imgur_access_token :=
          match data.lookup "imgur_access_token" with
          | some v => v
          | none => "" }
  else
    .error "TypeError: unexpected keyword argument"

/-- `Config.to_json_file` writes `json.dump(asdict(self))`: the serialized
object holds exactly the dataclass fields. -/
def Config.to_json (c : Config) : List (String × String) :=
  [("imgur_access_token", c.imgur_access_token)]

/-- Observable state of the configuration file when `load_config` runs. -/
inductive FileState where
  | absent
  | unreadable
  | malformed
  | parsed (data : List (String × String))
deriving DecidableEq

/-- What `load_config` did: returned a `Config`, printed the error banner and
called `sys.exit(code)`, or let an exception it does not catch propagate
(`TypeError` out of `cls(**data)` is neither `JSONDecodeError` nor
`OSError`). -/
inductive LoadOutcome where
  | ok (c : Config)
  | exited (code : Nat) (printedError : Bool)
  | uncaught (msg : String)
deriving DecidableEq

/-- `load_config()`: default `Config` when the file is absent; on
`JSONDecodeError` or `OSError` print the error and `sys.exit(1)`. -/
def load_config : FileState → LoadOutcome
  | .absent => .ok {}
  | .unreadable => .exited 1 true
  | .malformed => .exited 1 true
  | .parsed data =>
    match Config.from_json data with
    | .ok c => .ok c
    | .error e => .uncaught e

/-- `config.to_json_file(get_config_path())`: the file afterwards parses to
exactly the serialized object. -/
def saveConfig (c : Config) : FileState :=
  .parsed c.to_json

/-- Python `str.strip()` (ASCII-whitespace model). -/
def pyStrip (s : String) : String :=
  String.mk (((s.data.dropWhile Char.isWhitespace).reverse.dropWhile
    Char.isWhitespace).reverse)

/-- Python `s.startswith(c)` for a one-character pattern, the only form
`get_confirmation` uses. -/
def pyStartsWith (s : String) (c : Char) : Bool :=
  match s.data with
  | [] => false
  | a :: _ => a = c

/-- `get_confirmation(prompt, default)`: the `while True` loop, reading one
line per iteration.  The list holds the lines standard input will deliver;
`none` means the loop consumed them all without returning (in the process it
would block or die on end-of-input). -/
def get_confirmation (default : Option Bool) : List String → Option Bool
  | [] => none
  | user_input :: rest =>
    if pyStartsWith (pyStrip (pyLower user_input)) 'y' then some true
    else if pyStartsWith (pyStrip (pyLower user_input)) 'n' then some false
    else if user_input == "" && default.isSome then default
    else get_confirmation default rest

/-- What `imgur_upload` sent to the external API: the entries whose upload
call was made, in call order, and the arguments of the one
`album_create` call. -/
structure UploadTrace where
  uploads : List Entry
  albumIds : List String
  albumTitle : String
  albumPrivacy : String
deriving DecidableEq

/-- One iteration of the upload loop: `if image_path.is_file():` upload and
append the returned identifier, else fall through.  The accumulator pairs the
entries uploaded so far with the `image_ids` list the loop builds. -/
def uploadStep (upload : Entry → String) (acc : List Entry × List String)
    (image_path : Entry) : List Entry × List String :=
  if image_path.isFile then
    (acc.1 ++ [image_path], acc.2 ++ [upload image_path])
  else
    acc

/-- `imgur_upload(image_paths, config, album_name, public)`: walk the paths in
order, skip entries that are not regular files, upload the rest collecting the
returned identifiers, then create the album from the collected identifiers.
`upload` is the external client: it yields `image["response"]["data"]["id"]`
for the `image_upload` call of one entry. -/
def imgur_upload (image_paths : List Entry) (upload : Entry → String)
    (album_name : String) (public : Bool) : UploadTrace :=
  let final := image_paths.foldl (uploadStep upload) ([], [])
  { uploads := final.1
    albumIds := final.2
    albumTitle := album_name
    albumPrivacy := if !public then "hidden" else "public" }

/-- The parsed command-line arguments of an invocation (docopt is external;
`--help`/`--version` exit inside it and are not modelled). -/
structure Args where
  show_config_path : Bool
  access_token : Option String
  album_name : String
  public : Bool

/-- The environment an invocation runs in: the configuration file's state,
the target of `dir_path` (`none` when it is not a directory, otherwise the
directory's entries), the lines standard input will deliver, and the external
upload API. -/
structure World where
  configFile : FileState
  dirListing : Option (List Entry)
  stdinLines : List String
  upload : Entry → String

/-- The observable outcome of `main()`: the process exit code (0 for a normal
return), the `Config` persisted by `to_json_file` if any, which messages were
printed, whether the confirmation prompt ran, and whether `imgur_upload` was
invoked (`uploadTrace` records its API traffic). -/
structure MainResult where
  exitCode : Nat
  configWritten : Option Config
  printedError : Bool
  printedNotDir : Bool
  printedNoImages : Bool
  promptShown : Bool
  uploadCalled : Bool
  uploadTrace : Option UploadTrace

/-- `main()`: translated clause by clause from the source. -/
def main (args : Args) (w : World) : MainResult :=
  if args.show_config_path then
    { exitCode := 0, configWritten := none, printedError := false,
      printedNotDir := false, printedNoImages := false, promptShown := false,
      uploadCalled := false, uploadTrace := none }
  else
    match load_config w.configFile with
    | .exited code _ =>
      { exitCode := code, configWritten := none, printedError := true,
        printedNotDir := false, printedNoImages := false, promptShown := false,
        uploadCalled := false, uploadTrace := none }
    | .uncaught _ =>
      { exitCode := 1, configWritten := none, printedError := true,
        printedNotDir := false, printedNoImages := false, promptShown := false,
        uploadCalled := false, uploadTrace := none }
    | .ok config0 =>
      -- `if args.access_token:` — Python truthiness: the branch is skipped
      -- both when the option is absent (None) and when its value is the
      -- empty string (falsy), as with `--access-token=`.
      let config : Config :=
        match args.access_token with
        | some t => if t = "" then config0 else { config0 with imgur_access_token := t }
        | none => config0
      let written : Option Config :=
        match args.access_token with
        | some t => if t = "" then none else some config
        | none => none
      match w.dirListing with
      | none =>
        { exitCode := 1, configWritten := written, printedError := true,
          printedNotDir := true, printedNoImages := false,
          promptShown := false, uploadCalled := false, uploadTrace := none }
      | some entries =>
        let image_paths := get_image_paths entries
        if image_paths.isEmpty then
          { exitCode := 1, configWritten := written, printedError := true,
            printedNotDir := false, printedNoImages := true,
            promptShown := false, uploadCalled := false, uploadTrace := none }
        else
          match get_confirmation (some false) w.stdinLines with
          | some true =>
            { exitCode := 0, configWritten := written, printedError := false,
              printedNotDir := false, printedNoImages := false,
              promptShown := true, uploadCalled := true,
              uploadTrace :=
                some (imgur_upload image_paths w.upload args.album_name
                  args.public) }
          | some false =>
            { exitCode := 0, configWritten := written, printedError := false,
              printedNotDir := false, printedNoImages := false,
              promptShown := true, uploadCalled := false, uploadTrace := none }
          | none =>
            { exitCode := 1, configWritten := written, printedError := true,
              printedNotDir := false, printedNoImages := false,
              promptShown := true, uploadCalled := false, uploadTrace := none }

/-! Order-theoretic facts about the natural-sort comparison, needed to apply
the generic sorting lemmas. -/

theorem char_eq_of_toNat_eq {a b : Char} (h : a.toNat = b.toNat) : a = b :=
  Char.eq_of_val_eq (UInt32.toNat.inj h)

theorem charListLt_trans {as bs cs : List Char} (h1 : charListLt as bs = true)
    (h2 : charListLt bs cs = true) : charListLt as cs = true := by
  induction as generalizing bs cs with
  | nil =>
    cases bs with
    | nil => simp [charListLt] at h1
    | cons b bs' =>
      cases cs with
      | nil => simp [charListLt] at h2
      | cons c cs' => simp [charListLt]
  | cons a as' ih =>
    cases bs with
    | nil => simp [charListLt] at h1
    | cons b bs' =>
      cases cs with
      | nil => simp [charListLt] at h2
      | cons c cs' =>
        simp only [charListLt] at h1 h2 ⊢
        split_ifs at h1 h2 ⊢ <;>
          first
            | rfl
            | omega
            | exact ih h1 h2

theorem charListLt_eq {as bs : List Char} (h1 : charListLt as bs = false)
    (h2 : charListLt bs as = false) : as = bs := by
  induction as generalizing bs with
  | nil =>
    cases bs with
    | nil => rfl
    | cons b bs' => simp [charListLt] at h1
  | cons a as' ih =>
    cases bs with
    | nil => simp [charListLt] at h2
    | cons b bs' =>
      simp only [charListLt] at h1 h2
      split_ifs at h1 h2 <;> try omega
      have hab : a = b := char_eq_of_toNat_eq (by omega)
      rw [hab, ih h1 h2]

theorem chunkLt_trans {a b c : NatsortChunk} (h1 : chunkLt a b = true)
    (h2 : chunkLt b c = true) : chunkLt a c = true := by
  cases a <;> cases b <;> cases c <;>
    simp_all only [chunkLt, strLt, decide_eq_true_eq, Bool.false_eq_true] <;>
      first
        | omega
        | exact charListLt_trans h1 h2

theorem chunkLt_eq {a b : NatsortChunk} (h1 : chunkLt a b = false)
    (h2 : chunkLt b a = false) : a = b := by
  cases a with
  | str s =>
    cases b with
    | str t =>
      have hd : s.data = t.data := charListLt_eq
        (by simpa [chunkLt, strLt] using h1) (by simpa [chunkLt, strLt] using h2)
      have hst : s = t := by
        cases s
        cases t
        exact congrArg String.mk hd
      rw [hst]
    | num n => simp [chunkLt] at h2
  | num m =>
    cases b with
    | str t => simp [chunkLt] at h1
    | num n =>
      have hmn : m = n := by
        simp only [chunkLt, decide_eq_false_iff_not] at h1 h2
        omega
      rw [hmn]

theorem keyLe_total (k l : List NatsortChunk) :
    keyLe k l = true ∨ keyLe l k = true := by
  induction k generalizing l with
  | nil => exact Or.inl rfl
  | cons a as ih =>
    cases l with
    | nil => exact Or.inr rfl
    | cons b bs =>
      simp only [keyLe]
      rcases ih bs with h | h <;> split_ifs <;> simp_all

theorem keyLe_trans {k1 k2 k3 : List NatsortChunk} (h1 : keyLe k1 k2 = true)
    (h2 : keyLe k2 k3 = true) : keyLe k1 k3 = true := by
  induction k1 generalizing k2 k3 with
  | nil => rfl
  | cons a as ih =>
    cases k2 with
    | nil => simp [keyLe] at h1
    | cons b bs =>
      cases k3 with
      | nil => simp [keyLe] at h2
      | cons c cs =>
        simp only [keyLe] at h1 h2 ⊢
        cases hab : chunkLt a b with
        | true =>
          cases hbc : chunkLt b c with
          | true => simp [chunkLt_trans hab hbc]
          | false =>
            cases hcb : chunkLt c b with
            | true => simp [hbc, hcb] at h2
            | false =>
              have hbceq : b = c := chunkLt_eq hbc hcb
              subst hbceq
              simp [hab]
        | false =>
          cases hba : chunkLt b a with
          | true => simp [hab, hba] at h1
          | false =>
            have habeq : a = b := chunkLt_eq hab hba
            subst habeq
            simp only [hab, if_false, Bool.false_eq_true] at h1
            cases hac : chunkLt a c with
            | true => simp [hac]
            | false =>
              cases hca : chunkLt c a with
              | true => simp [hac, hca] at h2
              | false =>
                simp only [hac, hca, if_false, Bool.false_eq_true] at h2 ⊢
                exact ih h1 h2

theorem natLe_total (a b : Entry) : natLe a b = true ∨ natLe b a = true :=
  keyLe_total _ _

theorem natLe_trans {a b c : Entry} (h1 : natLe a b = true)
    (h2 : natLe b c = true) : natLe a c = true :=
  keyLe_trans h1 h2

instance : IsTotal Entry (fun a b => natLe a b = true) :=
  ⟨natLe_total⟩

instance : IsTrans Entry (fun a b => natLe a b = true) :=
  ⟨fun _ _ _ => natLe_trans⟩

/-! Helper lemmas about the embedded operations. -/

theorem uploadStep_foldl (upload : Entry → String) (ps : List Entry) :
    ∀ acc : List Entry × List String,
      ps.foldl (uploadStep upload) acc
        = (acc.1 ++ ps.filter (fun p => p.isFile),
           acc.2 ++ (ps.filter (fun p => p.isFile)).map upload) := by
  induction ps with
  | nil => intro acc; simp
  | cons p ps ih =>
    intro acc
    cases hp : p.isFile
    · simp [uploadStep, hp, ih, List.filter_cons]
    · simp [uploadStep, hp, ih, List.filter_cons]

theorem load_config_exited {fs : FileState} {code : Nat} {printed : Bool}
    (h : load_config fs = .exited code printed) : code = 1 ∧ printed = true := by
  cases fs with
  | absent => simp [load_config] at h
  | unreadable =>
    simp only [load_config, LoadOutcome.exited.injEq] at h
    exact ⟨h.1.symm, h.2.symm⟩
  | malformed =>
    simp only [load_config, LoadOutcome.exited.injEq] at h
    exact ⟨h.1.symm, h.2.symm⟩
  | parsed data =>
    cases hfj : Config.from_json data <;> simp [load_config, hfj] at h

theorem pyStartsWith_ne {s : String} {c d : Char}
    (h : pyStartsWith s c = true) (hne : c ≠ d) : pyStartsWith s d = false := by
  unfold pyStartsWith at h ⊢
  cases hs : s.data with
  | nil =>
    rw [hs] at h
  | cons a tail =>
    rw [hs] at h
    have hac : a = c := by simpa using h
    subst hac
    exact decide_eq_false hne

/-! Concrete sample inputs used by the witnesses. -/

/-- An upload invocation without `--access-token` or `--public`. -/
def sampleArgs : Args :=
  { show_config_path := false, access_token := none, album_name := "album",
    public := false }

/-- An upload invocation carrying `--access-token=abc123`. -/
def sampleTokenArgs : Args :=
  { show_config_path := false, access_token := some "abc123",
    album_name := "album", public := false }

/-- A deterministic stand-in for the external upload API. -/
def sampleUpload : Entry → String :=
  fun e => e.name ++ "-id"

/-- No config file yet; `dir_path` holds a single non-image file. -/
def sampleNoImagesWorld : World :=
  { configFile := .absent, dirListing := some [⟨"notes.txt", true⟩],
    stdinLines := [], upload := sampleUpload }

/-- An upload invocation carrying `--access-token=` with an empty value. -/
def sampleEmptyTokenArgs : Args :=
  { show_config_path := false, access_token := some "",
    album_name := "album", public := false }

/-- No config file yet; `dir_path` is not a directory. -/
def sampleNotDirWorld : World :=
  { configFile := .absent, dirListing := none, stdinLines := [],
    upload := sampleUpload }

/-- A directory (not a regular file) named like an image. -/
def samplePhotoDirEntry : Entry :=
  ⟨"photo.jpg", false⟩

/-! The claims. -/

/-- C1: `get_image_paths` returns exactly those immediate entries whose
lowercased extension is one of `.jpg`, `.jpeg`, `.png`, `.gif` (a permutation
of the extension-filtered listing), arranged in natural order
(`natLe`-pairwise); concretely, `img1.png`, `img2.png`, `img10.png` come out
in numeric order, never lexicographically. -/
theorem c1_discovery_exact_and_naturally_ordered (entries : List Entry) :
    (get_image_paths entries).Perm
        (entries.filter fun e => isImageName e.name) ∧
    (get_image_paths entries).Pairwise (fun a b => natLe a b = true) ∧
    get_image_paths
        [⟨"img10.png", true⟩, ⟨"img2.png", true⟩, ⟨"img1.png", true⟩]
      = [⟨"img1.png", true⟩, ⟨"img2.png", true⟩, ⟨"img10.png", true⟩] := by
  refine ⟨?_, ?_, by decide⟩
  · simpa [get_image_paths, natsorted, isImageName] using
      (List.perm_insertionSort (fun a b : Entry => natLe a b = true)
        entries).filter
        (fun e => imageSuffixes.contains (pyLower (pySuffix e.name)))
  · exact List.Pairwise.filter _
      (List.sorted_insertionSort (fun a b : Entry => natLe a b = true) entries)

/-- C2: the identifier sequence handed to `album_create` is exactly the
per-image upload results, in the order of the given path sequence restricted
to regular files; in particular this holds for the natural-sorted discovery
sequence. -/
theorem c2_album_ids_in_upload_order (entries image_paths : List Entry)
    (upload : Entry → String) (album_name : String) (public : Bool) :
    (imgur_upload image_paths upload album_name public).albumIds
        = (image_paths.filter fun p => p.isFile).map upload ∧
    (imgur_upload image_paths upload album_name public).uploads
        = image_paths.filter (fun p => p.isFile) ∧
    (imgur_upload (get_image_paths entries) upload album_name public).albumIds
        = ((get_image_paths entries).filter fun p => p.isFile).map upload := by
  refine ⟨?_, ?_, ?_⟩ <;> simp [imgur_upload, uploadStep_foldl]

/-- C3: the confirmation gate accepts an input starting (after lowercasing and
stripping) with `y` as true and with `n` as false, returns the default on an
empty input when a default is set, and on any other input re-prompts, reading
the remaining input lines unchanged. -/
theorem c3_confirmation_gate (default : Option Bool) (s : String)
    (rest : List String) (b : Bool) :
    (pyStartsWith (pyStrip (pyLower s)) 'y' = true →
      get_confirmation default (s :: rest) = some true) ∧
    (pyStartsWith (pyStrip (pyLower s)) 'n' = true →
      get_confirmation default (s :: rest) = some false) ∧
    (s = "" → default = some b →
      get_confirmation default (s :: rest) = some b) ∧
    (pyStartsWith (pyStrip (pyLower s)) 'y' = false →
      pyStartsWith (pyStrip (pyLower s)) 'n' = false →
      (s ≠ "" ∨ default = none) →
      get_confirmation default (s :: rest) = get_confirmation default rest) := by
  refine ⟨?_, ?_, ?_, ?_⟩
  · intro hy
    simp [get_confirmation, hy]
  · intro hn
    have hy := pyStartsWith_ne hn (show ('n' : Char) ≠ 'y' by decide)
    simp [get_confirmation, hy, hn]
  · intro hs hd
    subst hs
    subst hd
    simp +decide [get_confirmation]
  · intro hy hn hother
    rcases hother with hne | hdnone
    · have hbeq : (s == "") = false := by simpa using hne
      simp [get_confirmation, hy, hn, hbeq]
    · subst hdnone
      simp [get_confirmation, hy, hn]

/-- C3 witness: `"maybe"` re-prompts and the following `"Y"` is accepted;
an empty input with default `false` returns `false`. -/
theorem c3_confirmation_gate_witness :
    get_confirmation none ["maybe", "Y"] = some true ∧
    get_confirmation (some false) [""] = some false := by
  constructor
  · have hstep := (c3_confirmation_gate none "maybe" ["Y"] true).2.2.2
      (by decide) (by decide) (Or.inr rfl)
    rw [hstep]
    exact (c3_confirmation_gate none "Y" [] true).1 (by decide)
  · exact (c3_confirmation_gate (some false) "" [] false).2.2.1 rfl rfl

/-- C4 counterexample: a JSON object missing the recognized key
`imgur_access_token` is accepted, not rejected — `Config(**{})` succeeds
because the dataclass field has a default. -/
theorem c4_missing_key_accepted :
    Config.from_json [] = .ok { imgur_access_token := "" } := rfl

/-- C4 amended: construction is strict for unknown keys only — any object
containing a key other than `imgur_access_token` raises, while the empty
object is accepted with the default empty token. -/
theorem c4_unknown_key_rejected (data : List (String × String)) (k v : String)
    (hmem : (k, v) ∈ data) (hk : configFields.contains k = false) :
    (∃ e, Config.from_json data = .error e) ∧
    Config.from_json [] = .ok { imgur_access_token := "" } := by
  refine ⟨⟨"TypeError: unexpected keyword argument", ?_⟩, rfl⟩
  simp [Config.from_json]
  exact ⟨k, ⟨v, hmem⟩, by simpa using hk⟩

/-- C4 witness: an object with the unknown key `token` is rejected while the
empty object is accepted. -/
theorem c4_unknown_key_rejected_witness :
    (∃ e, Config.from_json [("token", "abc123")] = .error e) ∧
    Config.from_json [] = .ok { imgur_access_token := "" } :=
  c4_unknown_key_rejected [("token", "abc123")] "token" "abc123"
    (by decide) (by decide)

/-- C5: `load_config` returns the default `Config` when the file is absent,
and on an unreadable (`OSError`) or malformed (`JSONDecodeError`) file it
prints the error and exits with code 1, returning no fallback value. -/
theorem c5_load_config_error_handling :
    load_config .absent = .ok { imgur_access_token := "" } ∧
    load_config .unreadable = .exited 1 true ∧
    load_config .malformed = .exited 1 true :=
  ⟨rfl, rfl, rfl⟩

/-- C6: saving a `Config` and loading the resulting file returns a `Config`
with the same `imgur_access_token`, for every token string. -/
theorem c6_config_round_trip (c : Config) :
    load_config (saveConfig c) = .ok c := rfl

/-- C7: when `dir_path` is a directory with no image-named entries, `main`
exits with code 1, prints the no-images message, and never invokes
`imgur_upload`. -/
theorem c7_no_images_exits_without_upload (args : Args) (w : World)
    (c : Config) (entries : List Entry)
    (hshow : args.show_config_path = false)
    (hload : load_config w.configFile = .ok c)
    (hdir : w.dirListing = some entries)
    (hempty : get_image_paths entries = []) :
    (main args w).exitCode = 1 ∧
    (main args w).printedNoImages = true ∧
    (main args w).uploadCalled = false ∧
    (main args w).uploadTrace = none := by
  simp [main, hshow, hload, hdir, hempty]

/-- C7 witness: a directory holding only `notes.txt` exits 1 with the
no-images message and no upload call. -/
theorem c7_no_images_exits_without_upload_witness :
    (main sampleArgs sampleNoImagesWorld).exitCode = 1 ∧
    (main sampleArgs sampleNoImagesWorld).printedNoImages = true ∧
    (main sampleArgs sampleNoImagesWorld).uploadCalled = false ∧
    (main sampleArgs sampleNoImagesWorld).uploadTrace = none :=
  c7_no_images_exits_without_upload sampleArgs sampleNoImagesWorld
    { imgur_access_token := "" } [⟨"notes.txt", true⟩] rfl rfl rfl (by decide)

/-- C8: when `dir_path` is not a directory, `main` prints an error and exits
with code 1 before the confirmation prompt and before any upload, whatever
the state of the configuration file. -/
theorem c8_not_directory_exits_before_prompt (args : Args) (w : World)
    (hshow : args.show_config_path = false)
    (hdir : w.dirListing = none) :
    (main args w).exitCode = 1 ∧
    (main args w).printedError = true ∧
    (main args w).promptShown = false ∧
    (main args w).uploadCalled = false := by
  cases hload : load_config w.configFile with
  | ok c => simp [main, hshow, hload, hdir]
  | exited code printed =>
    have hcode := (load_config_exited hload).1
    subst hcode
    simp [main, hshow, hload]
  | uncaught msg => simp [main, hshow, hload]

/-- C8 witness: a non-directory `dir_path` exits 1 with an error, no prompt,
no upload. -/
theorem c8_not_directory_exits_before_prompt_witness :
    (main sampleArgs sampleNotDirWorld).exitCode = 1 ∧
    (main sampleArgs sampleNotDirWorld).printedError = true ∧
    (main sampleArgs sampleNotDirWorld).promptShown = false ∧
    (main sampleArgs sampleNotDirWorld).uploadCalled = false :=
  c8_not_directory_exits_before_prompt sampleArgs sampleNotDirWorld rfl rfl

/-- C9: discovery filters by name only — an entry of the directory whose name
carries an image extension is listed regardless of its file type — while the
upload loop performs no upload call for an entry that is not a regular
file. -/
theorem c9_discovery_by_name_upload_checks_file (entries image_paths : List Entry)
    (e : Entry) (upload : Entry → String) (album_name : String) (public : Bool) :
    (e ∈ entries → isImageName e.name = true → e ∈ get_image_paths entries) ∧
    (e.isFile = false →
      e ∉ (imgur_upload image_paths upload album_name public).uploads) := by
  constructor
  · intro hmem him
    have hsorted : e ∈ natsorted entries :=
      (List.perm_insertionSort (fun a b : Entry => natLe a b = true)
        entries).mem_iff.mpr hmem
    simp only [get_image_paths, List.mem_filter]
    exact ⟨hsorted, by simpa [isImageName] using him⟩
  · intro hfile
    simp [imgur_upload, uploadStep_foldl, List.mem_filter, hfile]

/-- C9 witness: a directory named `photo.jpg` is listed by discovery but gets
no upload call. -/
theorem c9_discovery_by_name_upload_checks_file_witness :
    samplePhotoDirEntry ∈ get_image_paths [samplePhotoDirEntry] ∧
    samplePhotoDirEntry ∉
      (imgur_upload [samplePhotoDirEntry] sampleUpload "album" false).uploads := by
  constructor
  · exact (c9_discovery_by_name_upload_checks_file [samplePhotoDirEntry]
      [samplePhotoDirEntry] samplePhotoDirEntry sampleUpload "album" false).1
      (by decide) (by decide)
  · exact (c9_discovery_by_name_upload_checks_file [samplePhotoDirEntry]
      [samplePhotoDirEntry] samplePhotoDirEntry sampleUpload "album" false).2 rfl

/-- C10 counterexample: with `--access-token=` carrying the empty string and
an invalid `dir_path`, the run exits with code 1 but nothing is written to
the configuration file — `if args.access_token:` is false for the empty
string, so the persisted-credential half of the claim fails. -/
theorem c10_empty_token_not_persisted :
    (main sampleEmptyTokenArgs sampleNotDirWorld).exitCode = 1 ∧
    (main sampleEmptyTokenArgs sampleNotDirWorld).configWritten = none :=
  ⟨rfl, rfl⟩

/-- C10 amended: with `--access-token` supplied with a non-empty token and
the stored config loading successfully, the token is persisted before the
directory argument is validated: the run exits with code 1 and the
configuration file has already been overwritten with the new token.  (An
empty token value is falsy in Python, so the write is skipped.) -/
theorem c10_token_persisted_despite_invalid_dir (args : Args) (w : World)
    (t : String) (c : Config)
    (hshow : args.show_config_path = false)
    (htok : args.access_token = some t)
    (htne : t ≠ "")
    (hload : load_config w.configFile = .ok c)
    (hdir : w.dirListing = none) :
    (main args w).exitCode = 1 ∧
    (main args w).configWritten = some { imgur_access_token := t } := by
  simp [main, hshow, htok, htne, hload, hdir]

/-- C10 witness: `--access-token=abc123` with a non-directory `dir_path`
exits 1 yet persists the token. -/
theorem c10_token_persisted_despite_invalid_dir_witness :
    (main sampleTokenArgs sampleNotDirWorld).exitCode = 1 ∧
    (main sampleTokenArgs sampleNotDirWorld).configWritten
      = some { imgur_access_token := "abc123" } :=
  c10_token_persisted_despite_invalid_dir sampleTokenArgs sampleNotDirWorld
    "abc123" { imgur_access_token := "" } rfl rfl (by decide) rfl rfl

end ChapterUp
